import Mathlib

/-! Verification of the loss-analytics statistical engine.

Shallow embedding of the two Python modules
`pyjobs/anomaly_detector.py` and `pyjobs/oee_calculator.py` of the
manufacturing-dashboard repository, together with proofs of the
specification claims about them.

Numeric modelling conventions:
* Python floats are modelled as exact rationals (`ℚ`) wherever the code
  only performs field arithmetic and comparisons; the standard-normal
  CDF (from `scipy.stats`) is modelled as the real CDF of the Gaussian
  measure, over `ℝ`.
* Python `round(x, 2)` (round-half-to-even on the scaled value) is
  modelled exactly on `ℚ`.
* Database rows are modelled as explicit record structures; a nullable
  column is an `Option`; a query result that can be absent is an
  `Option` row.
-/

namespace MS5

/-! Section: Univariate anomaly detection (`anomaly_detector.py`)

`AnomalyDetector.__init__` (lines 40-45) sets the severity thresholds;
`AnomalyDetector._check_anomaly` (lines 169-212) applies them to a
z-score. -/

/-- The `self.z_threshold` dict of `AnomalyDetector.__init__`
(lines 40-45), in Python dict insertion order. -/
def z_threshold : List (String × ℚ) :=
  [("LOW", 2), ("MEDIUM", 5/2), ("HIGH", 3), ("CRITICAL", 7/2)]

/-- Stable insertion of a pair into a list already sorted by second
component descending: the new pair goes after every element whose value
is ≥ its own. -/
def insertByValDesc (p : String × ℚ) : List (String × ℚ) → List (String × ℚ)
  | [] => [p]
  | q :: t => if q.2 < p.2 then p :: q :: t else q :: insertByValDesc p t

/-- The `sorted(self.z_threshold.items(), key=lambda x: x[1], reverse=True)`
(line 187): a stable sort by threshold value, descending. -/
def sortByValDesc (l : List (String × ℚ)) : List (String × ℚ) :=
  l.foldl (fun acc p => insertByValDesc p acc) []

/-- The severity-selection loop of `_check_anomaly` (lines 185-190):
walk the thresholds in descending order and take the first level whose
threshold the z-score meets or exceeds. -/
def severityOf (z : ℚ) : Option String :=
  ((sortByValDesc z_threshold).find? (fun p => decide (p.2 ≤ z))).map (·.1)

/-- The fields of the `Anomaly` dataclass (lines 22-33) that carry the
statistical result of `_check_anomaly`; timestamp, asset id, the
formatted description string and the (real-valued) confidence are
handled separately. -/
structure AnomalyQ where
  value : ℚ
  expected_value : ℚ
  deviation : ℚ
  severity : String
  deriving DecidableEq, Repr

/-- The `AnomalyDetector._check_anomaly` (lines 169-212), discrete part:
guard `std == 0 or std is None`, z-score `abs((value - mean) / std)`,
severity selection; `None` when no threshold is met. -/
def check_anomaly (value mean : ℚ) (std : Option ℚ) : Option AnomalyQ :=
  match std with
  | none => none
  | some s =>
    if s = 0 then none
    else
      let z := |(value - mean) / s|
      match severityOf z with
      | none => none
      | some sev => some ⟨value, mean, z, sev⟩

/-- Rank of a severity label under the intended ordering
LOW < MEDIUM < HIGH < CRITICAL (absence of an anomaly ranks lowest). -/
def severityRank : Option String → ℕ
  | some "LOW" => 1
  | some "MEDIUM" => 2
  | some "HIGH" => 3
  | some "CRITICAL" => 4
  | _ => 0

/-- The descending-sorted threshold list evaluates as expected. -/
lemma sortByValDesc_z_threshold :
    sortByValDesc z_threshold =
      [("CRITICAL", 7/2), ("HIGH", 3), ("MEDIUM", 5/2), ("LOW", 2)] := by
  norm_num [sortByValDesc, z_threshold, List.foldl, insertByValDesc]

/-- Closed form of the severity-selection loop. -/
lemma severityOf_eq (z : ℚ) :
    severityOf z =
      if 7/2 ≤ z then some "CRITICAL"
      else if 3 ≤ z then some "HIGH"
      else if 5/2 ≤ z then some "MEDIUM"
      else if 2 ≤ z then some "LOW"
      else none := by
  rw [severityOf, sortByValDesc_z_threshold]
  simp only [List.find?]
  by_cases h1 : (7/2 : ℚ) ≤ z <;> by_cases h2 : (3 : ℚ) ≤ z <;>
    by_cases h3 : (5/2 : ℚ) ≤ z <;> by_cases h4 : (2 : ℚ) ≤ z <;>
    simp [h1, h2, h3, h4]

/-- The `check_anomaly` with a nonzero stddev, expressed through `severityOf`. -/
lemma check_anomaly_some (value mean s : ℚ) (hs : s ≠ 0) :
    check_anomaly value mean (some s) =
      (severityOf |(value - mean) / s|).map
        (fun sev => ⟨value, mean, |(value - mean) / s|, sev⟩) := by
  simp only [check_anomaly, if_neg hs]
  cases severityOf |(value - mean) / s| <;> rfl

/-- Claim C1: for a univariate check of a value against a baseline, a zero
or undefined stddev yields no anomaly; otherwise, with
z = |value − mean| / stddev, the severity is CRITICAL for z ≥ 3.5, HIGH
for 3.0 ≤ z < 3.5, MEDIUM for 2.5 ≤ z < 3.0, LOW for 2.0 ≤ z < 2.5, and
no anomaly is returned for z < 2.0; the assigned severity is
monotonically non-decreasing in z. -/
theorem univariate_severity_bands (value mean s z : ℚ)
    (hs : s ≠ 0) (hz : z = |(value - mean) / s|) :
    (check_anomaly value mean none = none) ∧
    (check_anomaly value mean (some 0) = none) ∧
    (7/2 ≤ z → check_anomaly value mean (some s) =
        some ⟨value, mean, z, "CRITICAL"⟩) ∧
    (3 ≤ z ∧ z < 7/2 → check_anomaly value mean (some s) =
        some ⟨value, mean, z, "HIGH"⟩) ∧
    (5/2 ≤ z ∧ z < 3 → check_anomaly value mean (some s) =
        some ⟨value, mean, z, "MEDIUM"⟩) ∧
    (2 ≤ z ∧ z < 5/2 → check_anomaly value mean (some s) =
        some ⟨value, mean, z, "LOW"⟩) ∧
    (z < 2 → check_anomaly value mean (some s) = none) ∧
    (∀ z₁ z₂ : ℚ, z₁ ≤ z₂ →
        severityRank (severityOf z₁) ≤ severityRank (severityOf z₂)) := by
  subst hz
  have hsome := check_anomaly_some value mean s hs
  refine ⟨rfl, by simp [check_anomaly], ?_, ?_, ?_, ?_, ?_, ?_⟩
  · intro h
    rw [hsome, severityOf_eq, if_pos h]
    rfl
  · rintro ⟨h1, h2⟩
    rw [hsome, severityOf_eq, if_neg (by linarith), if_pos h1]
    rfl
  · rintro ⟨h1, h2⟩
    rw [hsome, severityOf_eq, if_neg (by linarith), if_neg (by linarith),
      if_pos h1]
    rfl
  · rintro ⟨h1, h2⟩
    rw [hsome, severityOf_eq, if_neg (by linarith), if_neg (by linarith),
      if_neg (by linarith), if_pos h1]
    rfl
  · intro h
    rw [hsome, severityOf_eq, if_neg (by linarith), if_neg (by linarith),
      if_neg (by linarith), if_neg (by linarith)]
    rfl
  · intro z₁ z₂ hle
    rw [severityOf_eq, severityOf_eq]
    split_ifs <;> simp only [severityRank] <;> first | omega | linarith

/-- Witness for C1: the spec scenario mean = 80, stddev = 5,
sample = 95 gives z = 3 and severity HIGH. -/
theorem univariate_severity_bands_witness :
    (5 : ℚ) ≠ 0 ∧ (3 : ℚ) = |((95 : ℚ) - 80) / 5| ∧
      check_anomaly 95 80 (some 5) = some ⟨95, 80, 3, "HIGH"⟩ :=
  ⟨by norm_num, by norm_num,
    (univariate_severity_bands 95 80 5 3 (by norm_num)
        (by norm_num)).2.2.2.1 ⟨by norm_num, by norm_num⟩⟩

/-! Section: OEE calculation (`oee_calculator.py`)

`OEECalculator.calculate_oee` (lines 59-131). The aggregate query of
lines 68-83 returns at most one row (`fetchone`), modelled as an
`Option TelemetryAgg`; SQL `SUM` columns are nullable, and the code
coalesces them with `or 0`. The window length in minutes
(`planned_time`, line 91) and the cached ideal cycle time (line 104)
enter as parameters. -/

/-- One row of the aggregate telemetry query (lines 68-85). -/
structure TelemetryAgg where
  line_id : String
  total_runtime : Option ℚ
  total_downtime : Option ℚ
  total_good : Option ℚ
  total_reject : Option ℚ
  deriving DecidableEq, Repr

/-- The numeric fields of the `OEEMetrics` dataclass (lines 22-36);
timestamp and asset id are call metadata, not computed values. -/
structure OEEMetrics where
  line_id : String
  oee : ℚ
  availability : ℚ
  performance : ℚ
  quality : ℚ
  runtime : ℚ
  downtime : ℚ
  total_count : ℚ
  good_count : ℚ
  reject_count : ℚ
  deriving DecidableEq, Repr

/-- Line 101: `availability = (runtime / planned_time * 100) if
planned_time > 0 else 0`, before the clamp. -/
def availabilityRaw (row : TelemetryAgg) (planned_time : ℚ) : ℚ :=
  if 0 < planned_time then row.total_runtime.getD 0 / planned_time * 100 else 0

/-- Line 105: `performance = ((total_count * ideal_cycle_time) /
runtime * 100) if runtime > 0 else 0`, before the clamp. -/
def performanceRaw (row : TelemetryAgg) (ict : ℚ) : ℚ :=
  let runtime := row.total_runtime.getD 0
  let total_count := row.total_good.getD 0 + row.total_reject.getD 0
  if 0 < runtime then (total_count * ict) / runtime * 100 else 0

/-- Line 107: `quality = (good_count / total_count * 100) if
total_count > 0 else 0`, before the clamp. -/
def qualityRaw (row : TelemetryAgg) : ℚ :=
  let total_count := row.total_good.getD 0 + row.total_reject.getD 0
  if 0 < total_count then row.total_good.getD 0 / total_count * 100 else 0

/-- Lines 90-131 of `calculate_oee`, applied to an existing row: the
composite `oee` (line 110) is computed from the raw components, and all
four values are then clamped with `min(100, max(0, _))` (lines 112-116). -/
def oeeFromRow (row : TelemetryAgg) (planned_time ict : ℚ) : OEEMetrics :=
  let availability := availabilityRaw row planned_time
  let performance := performanceRaw row ict
  let quality := qualityRaw row
  let oee := availability * performance * quality / 10000
  { line_id := row.line_id
    oee := min 100 (max 0 oee)
    availability := min 100 (max 0 availability)
    performance := min 100 (max 0 performance)
    quality := min 100 (max 0 quality)
    runtime := row.total_runtime.getD 0
    downtime := row.total_downtime.getD 0
    total_count := row.total_good.getD 0 + row.total_reject.getD 0
    good_count := row.total_good.getD 0
    reject_count := row.total_reject.getD 0 }

/-- The `OEECalculator.calculate_oee` (lines 59-131): `raise ValueError`
when the query returns no row (lines 87-88), otherwise the computed
metrics. -/
def calculate_oee (data : Option TelemetryAgg) (planned_time ict : ℚ) :
    Except String OEEMetrics :=
  match data with
  | none => .error "No data found for asset"
  | some row => .ok (oeeFromRow row planned_time ict)

/-- Clamped values are within bounds. -/
lemma clamp_mem (x : ℚ) : 0 ≤ min 100 (max 0 x) ∧ min 100 (max 0 x) ≤ 100 :=
  ⟨le_min (by norm_num) (le_max_left 0 x), min_le_left _ _⟩

/-- Claim C2: every metric returned by `calculate_oee` lies in [0,100];
`runtime = 0` yields availability = performance = oee = 0 with no
division fault, and the `planned_time ≤ 0`, `runtime ≤ 0` and
`total_count ≤ 0` guards each yield 0. -/
theorem oee_components_clamped (row : TelemetryAgg) (pt ict : ℚ)
    (m : OEEMetrics) (hm : m = oeeFromRow row pt ict) :
    (0 ≤ m.availability ∧ m.availability ≤ 100) ∧
    (0 ≤ m.performance ∧ m.performance ≤ 100) ∧
    (0 ≤ m.quality ∧ m.quality ≤ 100) ∧
    (0 ≤ m.oee ∧ m.oee ≤ 100) ∧
    (row.total_runtime.getD 0 = 0 →
      m.availability = 0 ∧ m.performance = 0 ∧ m.oee = 0) ∧
    (pt ≤ 0 → m.availability = 0) ∧
    (row.total_runtime.getD 0 ≤ 0 → m.performance = 0) ∧
    (row.total_good.getD 0 + row.total_reject.getD 0 ≤ 0 → m.quality = 0) := by
  subst hm
  simp only [oeeFromRow]
  refine ⟨clamp_mem _, clamp_mem _, clamp_mem _, clamp_mem _, ?_, ?_, ?_, ?_⟩
  · intro h
    have ha : availabilityRaw row pt = 0 := by
      simp [availabilityRaw, h]
    have hp : performanceRaw row ict = 0 := by
      simp [performanceRaw, h]
    simp [ha, hp]
  · intro h
    have ha : availabilityRaw row pt = 0 := by
      rw [availabilityRaw, if_neg (by linarith)]
    simp [ha]
  · intro h
    have hp : performanceRaw row ict = 0 := by
      simp only [performanceRaw]
      rw [if_neg (by linarith)]
    simp [hp]
  · intro h
    have hq : qualityRaw row = 0 := by
      simp only [qualityRaw]
      rw [if_neg (by linarith)]
    simp [hq]

/-- Witness for C2: a window of 60 minutes with an all-zero telemetry
row has availability = performance = oee = 0. -/
theorem oee_components_clamped_witness :
    (oeeFromRow ⟨"L1", some 0, some 0, some 0, some 0⟩ 60 1).availability = 0 ∧
    (oeeFromRow ⟨"L1", some 0, some 0, some 0, some 0⟩ 60 1).performance = 0 ∧
    (oeeFromRow ⟨"L1", some 0, some 0, some 0, some 0⟩ 60 1).oee = 0 :=
  (oee_components_clamped ⟨"L1", some 0, some 0, some 0, some 0⟩ 60 1 _
      rfl).2.2.2.2.1 (by simp)

/-- Claim C6: `calculate_oee` raises its "no data" error exactly when the
aggregate query returns no row; an existing row — even with all
metrics zero — produces a normal result. -/
theorem calculate_oee_no_data_iff (data : Option TelemetryAgg) (pt ict : ℚ) :
    ((∃ e, calculate_oee data pt ict = .error e) ↔ data = none) ∧
    (data = none → calculate_oee data pt ict = .error "No data found for asset") ∧
    (∀ row, data = some row →
      calculate_oee data pt ict = .ok (oeeFromRow row pt ict)) := by
  cases data <;> simp [calculate_oee]

/-- Witness for C6: an all-zero row yields a normal (zero-valued)
result, and an absent row yields the error. -/
theorem calculate_oee_no_data_iff_witness :
    calculate_oee (some ⟨"L1", some 0, some 0, some 0, some 0⟩) 60 1 =
        .ok (oeeFromRow ⟨"L1", some 0, some 0, some 0, some 0⟩ 60 1) ∧
      calculate_oee (none : Option TelemetryAgg) 60 1 =
        .error "No data found for asset" :=
  ⟨(calculate_oee_no_data_iff (some ⟨"L1", some 0, some 0, some 0, some 0⟩)
      60 1).2.2 _ rfl,
    (calculate_oee_no_data_iff (none : Option TelemetryAgg) 60 1).2.1 rfl⟩

/-- Claim C10 (implicit): the returned `oee` is the clamp of the product
of the *raw* (unclamped) components, and on a concrete input where raw
performance exceeds 100 the returned `oee` is strictly greater than the
product of the returned (clamped) fields divided by 10000. -/
theorem oee_uses_unclamped_components :
    (∀ (row : TelemetryAgg) (pt ict : ℚ),
      (oeeFromRow row pt ict).oee =
        min 100 (max 0 (availabilityRaw row pt * performanceRaw row ict *
          qualityRaw row / 10000))) ∧
    ((oeeFromRow ⟨"L1", some 50, some 0, some 100, some 0⟩ 100 1).availability *
        (oeeFromRow ⟨"L1", some 50, some 0, some 100, some 0⟩ 100 1).performance *
        (oeeFromRow ⟨"L1", some 50, some 0, some 100, some 0⟩ 100 1).quality / 10000 <
      (oeeFromRow ⟨"L1", some 50, some 0, some 100, some 0⟩ 100 1).oee) := by
  constructor
  · intro row pt ict
    rfl
  · norm_num [oeeFromRow, availabilityRaw, performanceRaw, qualityRaw]

/-! Section: Pareto loss analysis (`oee_calculator.py`)

`OEECalculator.analyze_losses` (lines 147-215). The grouped loss query
(lines 157-173) is modelled as a list of `LossRow`; Python
`round(x, 2)` is round-half-to-even of the scaled value, modelled
exactly on `ℚ`. The `recommendations` field (a fixed text-producing
rule table, lines 217-262) is not involved in any analysed invariant
and is left out of the result record. -/

/-- Round to the nearest integer, ties to even — the rounding mode of
Python `round`. -/
def roundHalfEven (q : ℚ) : ℤ :=
  if q - ⌊q⌋ < 1/2 then ⌊q⌋
  else if 1/2 < q - ⌊q⌋ then ⌊q⌋ + 1
  else if ⌊q⌋ % 2 = 0 then ⌊q⌋ else ⌊q⌋ + 1

/-- Python `round(x, 2)`. -/
def round2 (q : ℚ) : ℚ := (roundHalfEven (q * 100) : ℚ) / 100

/-- One row of the grouped loss query (lines 157-173). -/
structure LossRow where
  category : String
  subcategory : String
  reason : String
  total_duration : ℚ
  total_impact : ℚ
  occurrences : ℕ
  deriving DecidableEq, Repr

/-- One entry of `pareto_losses` (lines 187-196). -/
structure ParetoEntry where
  category : String
  subcategory : String
  reason : String
  duration : ℚ
  impact : ℚ
  occurrences : ℕ
  percentage : ℚ
  cumulative_percentage : ℚ
  deriving DecidableEq, Repr

/-- The `total_loss_time = sum(loss['total_duration'] for loss in losses)`
(line 179). -/
def totalLossTime (losses : List LossRow) : ℚ :=
  (losses.map (·.total_duration)).sum

/-- The Pareto loop of lines 180-196: `cum` is the running (exact)
cumulative percentage; each stored percentage is rounded to two
decimals. -/
def paretoAux (total : ℚ) (cum : ℚ) : List LossRow → List ParetoEntry
  | [] => []
  | l :: rest =>
    let percentage := if 0 < total then l.total_duration / total * 100 else 0
    { category := l.category
      subcategory := l.subcategory
      reason := l.reason
      duration := l.total_duration
      impact := l.total_impact
      occurrences := l.occurrences
      percentage := round2 percentage
      cumulative_percentage := round2 (cum + percentage) }
      :: paretoAux total (cum + percentage) rest

/-- The full `pareto_losses` list of `analyze_losses`. -/
def paretoLosses (losses : List LossRow) : List ParetoEntry :=
  paretoAux (totalLossTime losses) 0 losses

/-- The vital-few loop of lines 198-203: append each ranked entry and
stop after the first whose `cumulative_percentage >= 80`. -/
def vital_few : List ParetoEntry → List ParetoEntry
  | [] => []
  | e :: rest =>
    e :: (if 80 ≤ e.cumulative_percentage then [] else vital_few rest)

/-- The result bundle of `analyze_losses` (lines 205-215), minus the
period echo and recommendations; `none` is the "No losses found" early
return of lines 175-176. -/
structure LossAnalysis where
  total_loss_time : ℚ
  total_losses : ℕ
  pareto_analysis : List ParetoEntry
  vital_few : List ParetoEntry
  deriving DecidableEq, Repr

/-- The `OEECalculator.analyze_losses` (lines 147-215). -/
def analyze_losses (losses : List LossRow) : Option LossAnalysis :=
  if losses = [] then none
  else some
    { total_loss_time := totalLossTime losses
      total_losses := losses.length
      pareto_analysis := paretoLosses losses
      vital_few := vital_few (paretoLosses losses) }

/-- The vital-few loop returns the prefix through the first entry whose
cumulative percentage reaches 80. -/
lemma vital_few_take (l : List ParetoEntry) :
    vital_few l =
      l.take (l.findIdx (fun e => decide (80 ≤ e.cumulative_percentage)) + 1) := by
  induction l with
  | nil => rfl
  | cons e rest ih =>
    by_cases h : 80 ≤ e.cumulative_percentage
    · simp [vital_few, h, List.findIdx_cons]
    · simp [vital_few, h, List.findIdx_cons, ih]

/-- Claim C4: in every successful `analyze_losses` result, `vital_few` is
exactly the prefix of the Pareto-ranked entries up to and including the
first entry whose `cumulative_percentage` ≥ 80; if no entry reaches 80,
it is the entire ranked list. -/
theorem vital_few_pareto_front (losses : List LossRow) (r : LossAnalysis)
    (hr : analyze_losses losses = some r) :
    r.vital_few = r.pareto_analysis.take
        (r.pareto_analysis.findIdx
          (fun e => decide (80 ≤ e.cumulative_percentage)) + 1) ∧
    ((∀ e ∈ r.pareto_analysis, e.cumulative_percentage < 80) →
      r.vital_few = r.pareto_analysis) := by
  have hr' : r = { total_loss_time := totalLossTime losses
                   total_losses := losses.length
                   pareto_analysis := paretoLosses losses
                   vital_few := vital_few (paretoLosses losses) } := by
    by_cases h : losses = [] <;> simp [analyze_losses, h] at hr
    exact hr.symm
  subst hr'
  refine ⟨vital_few_take _, fun hall => ?_⟩
  have hidx : (paretoLosses losses).findIdx
      (fun e => decide (80 ≤ e.cumulative_percentage)) =
      (paretoLosses losses).length := by
    rw [List.findIdx_eq_length]
    intro e he
    simpa using not_le.mpr (hall e he)
  simp only [vital_few_take, hidx]
  exact List.take_of_length_le (Nat.le_succ _)

/-- Witness for C4: a single all-zero-duration loss never reaches the
80 threshold, so the vital few is the whole ranked list. -/
theorem vital_few_pareto_front_witness :
    ∃ r, analyze_losses [⟨"A", "B", "r1", 0, 0, 1⟩] = some r ∧
      r.vital_few = r.pareto_analysis.take
        (r.pareto_analysis.findIdx
          (fun e => decide (80 ≤ e.cumulative_percentage)) + 1) ∧
      r.vital_few = r.pareto_analysis := by
  have hr : analyze_losses [⟨"A", "B", "r1", 0, 0, 1⟩] =
      some { total_loss_time := totalLossTime [⟨"A", "B", "r1", 0, 0, 1⟩]
             total_losses := 1
             pareto_analysis := paretoLosses [⟨"A", "B", "r1", 0, 0, 1⟩]
             vital_few := vital_few (paretoLosses [⟨"A", "B", "r1", 0, 0, 1⟩]) } := by
    simp [analyze_losses]
  have hall : ∀ e ∈ paretoLosses [⟨"A", "B", "r1", 0, 0, 1⟩],
      e.cumulative_percentage < 80 := by
    intro e he
    norm_num [paretoLosses, paretoAux, totalLossTime, round2,
      roundHalfEven] at he
    rw [he]
    norm_num
  exact ⟨_, hr, (vital_few_pareto_front _ _ hr).1,
    (vital_few_pareto_front _ _ hr).2 hall⟩

/-- The `roundHalfEven` is within one half of its argument. -/
lemma roundHalfEven_bounds (q : ℚ) :
    q - 1/2 ≤ (roundHalfEven q : ℚ) ∧ (roundHalfEven q : ℚ) ≤ q + 1/2 := by
  have hf1 : (⌊q⌋ : ℚ) ≤ q := Int.floor_le q
  have hf2 : q < ⌊q⌋ + 1 := Int.lt_floor_add_one q
  unfold roundHalfEven
  split_ifs with h1 h2 h3 <;> constructor <;> push_cast <;> linarith

/-- The `roundHalfEven` is monotone. -/
lemma roundHalfEven_mono {a b : ℚ} (hab : a ≤ b) :
    roundHalfEven a ≤ roundHalfEven b := by
  by_contra hcon
  push_neg at hcon
  have h1 := (roundHalfEven_bounds a).2
  have h2 := (roundHalfEven_bounds b).1
  have hstep : (roundHalfEven b : ℚ) + 1 ≤ (roundHalfEven a : ℚ) := by
    exact_mod_cast hcon
  have hba : b ≤ a := by linarith
  have heq : a = b := le_antisymm hab hba
  subst heq
  exact absurd hcon (lt_irrefl _)

/-- The `round2` is monotone. -/
lemma round2_mono {a b : ℚ} (hab : a ≤ b) : round2 a ≤ round2 b := by
  unfold round2
  have h : roundHalfEven (a * 100) ≤ roundHalfEven (b * 100) :=
    roundHalfEven_mono (by linarith)
  have h' : (roundHalfEven (a * 100) : ℚ) ≤ (roundHalfEven (b * 100) : ℚ) := by
    exact_mod_cast h
  linarith

/-- Rounding 100 to two decimals gives exactly 100. -/
lemma round2_hundred : round2 100 = 100 := by
  norm_num [round2, roundHalfEven]

/-- Along the Pareto loop with a non-negative total and non-negative
durations, the stored cumulative percentages increase from the rounded
starting accumulator. -/
lemma paretoAux_cum_chain (total : ℚ) (rows : List LossRow) :
    ∀ cum : ℚ, (∀ l ∈ rows, 0 ≤ l.total_duration) →
      List.Chain (· ≤ ·) (round2 cum)
        ((paretoAux total cum rows).map (·.cumulative_percentage)) := by
  induction rows with
  | nil =>
    intro cum _
    exact List.Chain.nil
  | cons l rest ih =>
    intro cum h
    have hd := h l (by simp)
    have hp : 0 ≤ (if 0 < total then l.total_duration / total * 100 else 0) := by
      split_ifs with h0
      · positivity
      · exact le_refl 0
    simp only [paretoAux, List.map_cons]
    exact List.Chain.cons (round2_mono (by linarith))
      (ih _ (fun x hx => h x (by simp [hx])))

/-- The last entry written by the Pareto loop carries the rounded sum
of the starting accumulator and all remaining percentage shares. -/
lemma paretoAux_getLast_cum (total : ℚ) (rows : List LossRow) :
    ∀ cum : ℚ, rows ≠ [] → 0 < total →
      ((paretoAux total cum rows).getLast?).map (·.cumulative_percentage) =
        some (round2 (cum + (rows.map (·.total_duration)).sum / total * 100)) := by
  induction rows with
  | nil =>
    intro cum h _
    exact absurd rfl h
  | cons l rest ih =>
    intro cum _ htpos
    cases rest with
    | nil =>
      simp [paretoAux, if_pos htpos]
    | cons l2 rest2 =>
      simp only [paretoAux, if_pos htpos, List.getLast?_cons_cons]
      rw [show (paretoAux total
          (cum + l.total_duration / total * 100 +
            l2.total_duration / total * 100) rest2) =
          paretoAux total
            ((cum + l.total_duration / total * 100) +
              l2.total_duration / total * 100) rest2 from rfl]
      have hih := ih (cum + l.total_duration / total * 100)
        (List.cons_ne_nil _ _) htpos
      simp only [paretoAux, if_pos htpos, List.getLast?_cons_cons] at hih
      rw [hih]
      congr 1
      have hne : total ≠ 0 := ne_of_gt htpos
      field_simp
      ring_nf

/-- Claim C5, corrected: the claim's conclusion that the last cumulative
percentage reaches ≈100 fails when every duration is zero (the
percentage guard then yields 0 for every entry), a case the claim's
"non-negative durations" hypothesis admits: for the single zero-duration
loss row the only stored cumulative percentage is 0. -/
theorem pareto_cumulative_counterexample :
    (0 : ℚ) ≤ (⟨"A", "B", "r1", 0, 0, 1⟩ : LossRow).total_duration ∧
    ([⟨"A", "B", "r1", 0, 0, 1⟩] : List LossRow) ≠ [] ∧
    ((paretoLosses [⟨"A", "B", "r1", 0, 0, 1⟩]).getLast?).map
        (·.cumulative_percentage) = some 0 ∧
    ((paretoLosses [⟨"A", "B", "r1", 0, 0, 1⟩]).getLast?).map
        (·.cumulative_percentage) ≠ some 100 := by
  refine ⟨by norm_num, by simp, ?_, ?_⟩ <;>
    norm_num [paretoLosses, paretoAux, totalLossTime, round2, roundHalfEven]

/-- Claim C5 (amended): for a non-empty loss list with non-negative
durations the stored cumulative percentages are non-decreasing, and
when the total loss time is positive the last entry's cumulative
percentage is exactly 100. -/
theorem pareto_cumulative_monotone (losses : List LossRow)
    (hne : losses ≠ [])
    (hnn : ∀ l ∈ losses, 0 ≤ l.total_duration) :
    List.Chain' (· ≤ ·)
      ((paretoLosses losses).map (·.cumulative_percentage)) ∧
    (0 < totalLossTime losses →
      ((paretoLosses losses).getLast?).map (·.cumulative_percentage) =
        some 100) := by
  constructor
  · have hchain : List.Chain (· ≤ ·) (round2 0)
        ((paretoLosses losses).map (·.cumulative_percentage)) :=
      paretoAux_cum_chain (totalLossTime losses) losses 0 hnn
    cases hmap : (paretoLosses losses).map (·.cumulative_percentage) with
    | nil => trivial
    | cons x xs =>
      rw [hmap] at hchain
      exact (List.chain_cons.mp hchain).2
  · intro htpos
    have hlast : ((paretoLosses losses).getLast?).map (·.cumulative_percentage) =
        some (round2 (0 + (losses.map (·.total_duration)).sum /
          totalLossTime losses * 100)) :=
      paretoAux_getLast_cum (totalLossTime losses) losses 0 hne htpos
    rw [show (0 : ℚ) + (losses.map (·.total_duration)).sum /
          totalLossTime losses * 100 = 100 by
        rw [show (losses.map (·.total_duration)).sum = totalLossTime losses
            from rfl]
        rw [div_self (ne_of_gt htpos)]
        ring] at hlast
    rw [round2_hundred] at hlast
    exact hlast

/-- Witness for the amended C5: two losses of 60 and 40 minutes give
cumulative percentages [60, 100]. -/
theorem pareto_cumulative_monotone_witness :
    List.Chain' (· ≤ ·)
      ((paretoLosses [⟨"A", "B", "r1", 60, 0, 1⟩,
        ⟨"P", "M", "r2", 40, 0, 2⟩]).map (·.cumulative_percentage)) ∧
    ((paretoLosses [⟨"A", "B", "r1", 60, 0, 1⟩,
        ⟨"P", "M", "r2", 40, 0, 2⟩]).getLast?).map (·.cumulative_percentage) =
      some 100 := by
  have h := pareto_cumulative_monotone
    [⟨"A", "B", "r1", 60, 0, 1⟩, ⟨"P", "M", "r2", 40, 0, 2⟩]
    (by simp)
    (by
      intro l hl
      simp only [List.mem_cons, List.not_mem_nil, or_false] at hl
      rcases hl with rfl | rfl <;> norm_num)
  exact ⟨h.1, h.2 (by norm_num [totalLossTime])⟩

/-! Section: Alert aggregation (`anomaly_detector.py`)

`AnomalyDetector.generate_alerts` (lines 365-402) and
`_get_recommended_action` (lines 404-429). Timestamps are modelled as
naturals (only their order and maximum are used; `isoformat` is
dropped); the `Anomaly` fields `confidence` and `description` are not
read by the aggregator and are left out of this record. -/

/-- The `Anomaly` fields consumed by `generate_alerts`. -/
structure Anomaly where
  timestamp : ℕ
  asset_id : String
  metric : String
  value : ℚ
  expected_value : ℚ
  severity : String
  deriving DecidableEq, Repr

/-- An alert dict, either the MULTIPLE_ANOMALIES shape (lines 380-388)
or the SINGLE_ANOMALY shape (lines 391-400). -/
inductive Alert where
  | multiple (asset_id severity : String) (count : ℕ) (metrics : List String)
      (timestamp : ℕ)
  | single (asset_id severity metric : String) (value expected : ℚ)
      (action : String) (timestamp : ℕ)
  deriving DecidableEq, Repr

/-- The `severity` field of either alert shape. -/
def Alert.severity : Alert → String
  | .multiple _ s _ _ _ => s
  | .single _ s _ _ _ _ _ => s

/-- The `AnomalyDetector._get_recommended_action` (lines 404-429): fixed
(metric, severity) action table with a default. -/
def get_recommended_action (a : Anomaly) : String :=
  match a.metric, a.severity with
  | "OEE", "HIGH" => "Check production line immediately"
  | "OEE", "CRITICAL" => "Stop production and investigate"
  | "Availability", "HIGH" => "Check for equipment failures"
  | "Availability", "CRITICAL" => "Initiate maintenance protocol"
  | "Performance", "HIGH" => "Review cycle times and minor stops"
  | "Performance", "CRITICAL" => "Check for major speed losses"
  | "Quality", "HIGH" => "Increase quality inspections"
  | "Quality", "CRITICAL" => "Quarantine recent production"
  | _, _ => "Monitor situation closely"

/-- The grouping keys `(asset_id, severity)` of the `defaultdict` loop
(lines 371-376), in first-appearance order (Python dict order). -/
def groupKeys (anomalies : List Anomaly) : List (String × String) :=
  anomalies.foldl
    (fun ks a =>
      if (a.asset_id, a.severity) ∈ ks then ks
      else ks ++ [(a.asset_id, a.severity)]) []

/-- The members of one group, in arrival order (the `defaultdict`
appends in iteration order). -/
def groupOf (anomalies : List Anomaly) (k : String × String) : List Anomaly :=
  anomalies.filter (fun a => decide ((a.asset_id, a.severity) = k))

/-- The `list(set(a.metric for a in group))` (line 385): the distinct
metrics; Python set order is unspecified, modelled as first-occurrence
order. -/
def distinctMetrics (group : List Anomaly) : List String :=
  (group.map (·.metric)).foldl
    (fun acc s => if s ∈ acc then acc else acc ++ [s]) []

/-- The alerts produced for one group (lines 378-400): a
MULTIPLE_ANOMALIES alert for ≥ 3 members, one SINGLE_ANOMALY alert per
member for a smaller HIGH/CRITICAL group, nothing otherwise.
`max(a.timestamp for a in group)` is a fold of `max` (the group is
non-empty whenever an alert is built). -/
def alertsOfGroup (k : String × String) (group : List Anomaly) : List Alert :=
  if 3 ≤ group.length then
    [.multiple k.1 k.2 group.length (distinctMetrics group)
      ((group.map (·.timestamp)).foldl max 0)]
  else if k.2 = "HIGH" ∨ k.2 = "CRITICAL" then
    group.map (fun a =>
      .single k.1 k.2 a.metric a.value a.expected_value
        (get_recommended_action a) a.timestamp)
  else []

/-- Stable insertion for a sort that is descending in the *string*
value of the severity label. -/
def insertBySevDesc (a : Alert) : List Alert → List Alert
  | [] => [a]
  | b :: t =>
    if b.severity < a.severity then a :: b :: t else b :: insertBySevDesc a t

/-- The `sorted(alerts, key=lambda x: x['severity'], reverse=True)`
(line 402): a stable sort, descending by the severity *string*. -/
def sortBySevDesc (l : List Alert) : List Alert :=
  l.foldl (fun acc a => insertBySevDesc a acc) []

/-- The `AnomalyDetector.generate_alerts` (lines 365-402). -/
def generate_alerts (anomalies : List Anomaly) : List Alert :=
  sortBySevDesc
    (((groupKeys anomalies).map
      (fun k => alertsOfGroup k (groupOf anomalies k))).flatten)

/-- Claim C3: the final sort of `generate_alerts` compares severity
*labels* as strings in reverse order, which does not realise the
intended CRITICAL > HIGH > MEDIUM > LOW ranking: for one CRITICAL and
one HIGH single-anomaly alert the list comes back as
[HIGH, CRITICAL] ("HIGH" > "CRITICAL" lexicographically), so a CRITICAL
alert does not precede a HIGH alert. -/
theorem generate_alerts_lexicographic_order :
    (generate_alerts
      [⟨1, "A1", "OEE", 40, 80, "CRITICAL"⟩,
       ⟨2, "A2", "OEE", 60, 80, "HIGH"⟩]).map Alert.severity =
      ["HIGH", "CRITICAL"] ∧
    (generate_alerts
      [⟨1, "A1", "OEE", 40, 80, "CRITICAL"⟩,
       ⟨2, "A2", "OEE", 60, 80, "HIGH"⟩]).map Alert.severity ≠
      ["CRITICAL", "HIGH"] := by
  have hlt : ("CRITICAL" : String) < "HIGH" := by
    simp
    decide
  have hmap : (generate_alerts
      [⟨1, "A1", "OEE", 40, 80, "CRITICAL"⟩,
       ⟨2, "A2", "OEE", 60, 80, "HIGH"⟩]).map Alert.severity =
      ["HIGH", "CRITICAL"] := by
    simp [generate_alerts, groupKeys, groupOf, alertsOfGroup, distinctMetrics,
      get_recommended_action, sortBySevDesc, insertBySevDesc, Alert.severity,
      List.filter, hlt]
  refine ⟨hmap, ?_⟩
  rw [hmap]
  simp

/-! Section: Trend forecasting (`oee_calculator.py`)

`OEECalculator.predict_oee_trend` (lines 264-343). The daily-average
query groups by `DATE(timestamp)`, so its result is one value per
distinct day; it enters as the list `daily`. Forecast dates are
calendar echoes of the call time and are dropped; forecast values are
kept. -/

/-- The result bundle of `predict_oee_trend` (lines 331-343). -/
structure TrendResult where
  historical_average : ℚ
  trend : String
  trend_strength : ℚ
  daily_change : ℚ
  forecast : List ℚ
  deriving DecidableEq, Repr

/-- The least-squares slope of lines 297-309: regression of the daily
values against the zero-based day index, 0 when the denominator is
zero. -/
def linregSlope (y : List ℚ) : ℚ :=
  let n := y.length
  let xs := (List.range n).map (fun i => (i : ℚ))
  let xmean := xs.sum / n
  let ymean := y.sum / n
  let num := ((xs.zip y).map (fun p => (p.1 - xmean) * (p.2 - ymean))).sum
  let den := (xs.map (fun x => (x - xmean) ^ 2)).sum
  if den ≠ 0 then num / den else 0

/-- The R² of lines 312-316 (`1 - ss_res / ss_tot`, 0 when `ss_tot`
is zero). -/
def linregR2 (y : List ℚ) : ℚ :=
  let n := y.length
  let xs := (List.range n).map (fun i => (i : ℚ))
  let ymean := y.sum / n
  let slope := linregSlope y
  let intercept := ymean - slope * (xs.sum / n)
  let ss_res := ((xs.zip y).map
    (fun p => (p.2 - (slope * p.1 + intercept)) ^ 2)).sum
  let ss_tot := (y.map (fun v => (v - ymean) ^ 2)).sum
  if ss_tot ≠ 0 then 1 - ss_res / ss_tot else 0

/-- The trend classification of lines 323-329. -/
def classifyTrend (slope : ℚ) : String :=
  if slope > 1/10 then "IMPROVING"
  else if slope < -(1/10) then "DECLINING"
  else "STABLE"

/-- The `OEECalculator.predict_oee_trend` (lines 264-343): fewer than 7
daily rows is the explicit insufficient-data result (lines 290-291),
otherwise the regression bundle with the forecast values clamped to
[0, 100] (line 339). -/
def predict_oee_trend (daily : List ℚ) (days_forecast : ℕ) :
    Except String TrendResult :=
  if daily.length < 7 then .error "Insufficient data for trend analysis"
  else
    let n := daily.length
    let xs := (List.range n).map (fun i => (i : ℚ))
    let ymean := daily.sum / n
    let slope := linregSlope daily
    let intercept := ymean - slope * (xs.sum / n)
    .ok { historical_average := ymean
          trend := classifyTrend slope
          trend_strength := linregR2 daily
          daily_change := slope
          forecast := (List.range days_forecast).map
            (fun i => min 100 (max 0 (slope * ((n : ℚ) + i) + intercept))) }

/-- Claim C7: `predict_oee_trend` returns the explicit insufficient-data
result whenever fewer than 7 distinct days are available; otherwise the
reported trend classifies the fitted slope as IMPROVING above 0.1,
DECLINING below −0.1 and STABLE in between; in particular slope 0.15 is
IMPROVING, −0.15 DECLINING and 0.05 STABLE. -/
theorem trend_classification (daily : List ℚ) (df : ℕ) :
    (daily.length < 7 →
      predict_oee_trend daily df = .error "Insufficient data for trend analysis") ∧
    (7 ≤ daily.length → ∀ r, predict_oee_trend daily df = .ok r →
      r.trend = classifyTrend (linregSlope daily) ∧
      r.daily_change = linregSlope daily) ∧
    (∀ s : ℚ, 1/10 < s → classifyTrend s = "IMPROVING") ∧
    (∀ s : ℚ, s < -(1/10) → classifyTrend s = "DECLINING") ∧
    (∀ s : ℚ, -(1/10) ≤ s → s ≤ 1/10 → classifyTrend s = "STABLE") ∧
    classifyTrend (15/100) = "IMPROVING" ∧
    classifyTrend (-(15/100)) = "DECLINING" ∧
    classifyTrend (5/100) = "STABLE" := by
  refine ⟨?_, ?_, ?_, ?_, ?_, ?_, ?_, ?_⟩
  · intro h
    simp [predict_oee_trend, h]
  · intro h r hr
    rw [predict_oee_trend, if_neg (not_lt.mpr h)] at hr
    cases hr
    exact ⟨rfl, rfl⟩
  · intro s hs
    unfold classifyTrend
    rw [if_pos hs]
  · intro s hs
    unfold classifyTrend
    rw [if_neg (by linarith : ¬ (s > 1/10)), if_pos hs]
  · intro s hs1 hs2
    unfold classifyTrend
    rw [if_neg (by linarith : ¬ (s > 1/10)),
      if_neg (by linarith : ¬ (s < -(1/10)))]
  · norm_num [classifyTrend]
  · norm_num [classifyTrend]
  · norm_num [classifyTrend]

/-- Witness for C7: three days of data are insufficient; a strictly
increasing week of daily OEE values yields an IMPROVING trend. -/
theorem trend_classification_witness :
    predict_oee_trend [80, 80, 80] 7 =
      .error "Insufficient data for trend analysis" ∧
    ∃ r, predict_oee_trend [78, 79, 80, 81, 82, 83, 84] 7 = .ok r ∧
      r.trend = classifyTrend (linregSlope [78, 79, 80, 81, 82, 83, 84]) := by
  refine ⟨(trend_classification [80, 80, 80] 7).1 (by norm_num), ⟨_, rfl, ?_⟩⟩
  exact ((trend_classification [78, 79, 80, 81, 82, 83, 84] 7).2.1
    (by norm_num) _ rfl).1

/-! Section: Anomaly confidence (`anomaly_detector.py`, line 196)

`confidence = min(99.9, stats.norm.cdf(z_score) * 100)`. The
standard-normal CDF of `scipy.stats` is the CDF of the Gaussian
measure with mean 0 and variance 1. -/

/-- The `stats.norm.cdf`: the standard-normal cumulative distribution
function. -/
noncomputable def stdNormCDF (z : ℝ) : ℝ :=
  ProbabilityTheory.cdf (ProbabilityTheory.gaussianReal 0 1) z

/-- Line 196 of `_check_anomaly`: the confidence attached to an
emitted anomaly as a function of its z-score. -/
noncomputable def confidenceOf (z : ℝ) : ℝ := min 99.9 (stdNormCDF z * 100)

/-- The confidence field of the anomaly emitted by `_check_anomaly`
(line 196 applied to the z-score stored as `deviation`). -/
noncomputable def check_anomaly_confidence (value mean : ℚ) (std : Option ℚ) :
    Option ℝ :=
  (check_anomaly value mean std).map (fun a => confidenceOf (a.deviation : ℝ))

/-- Claim C8: the confidence of every anomaly emitted by the univariate
detector equals min(99.9, Φ(z)·100) for its z-score; confidence always
lies within [0, 99.9] and is monotonically non-decreasing in z. -/
theorem confidence_formula_bounded_monotone :
    (∀ (v m : ℚ) (sd : Option ℚ) (a : AnomalyQ), check_anomaly v m sd = some a →
      check_anomaly_confidence v m sd =
        some (min 99.9 (stdNormCDF (a.deviation : ℝ) * 100))) ∧
    (∀ z : ℝ, 0 ≤ confidenceOf z ∧ confidenceOf z ≤ 99.9) ∧
    Monotone confidenceOf := by
  refine ⟨?_, ?_, ?_⟩
  · intro v m sd a ha
    rw [check_anomaly_confidence, ha, Option.map_some']
    rfl
  · intro z
    have h0 : (0 : ℝ) ≤ stdNormCDF z * 100 :=
      mul_nonneg (ProbabilityTheory.cdf_nonneg _ _) (by norm_num)
    exact ⟨le_min (by norm_num) h0, min_le_left _ _⟩
  · intro z₁ z₂ hz
    exact min_le_min (le_refl _)
      (mul_le_mul_of_nonneg_right
        (ProbabilityTheory.monotone_cdf _ hz) (by norm_num))

/-- Witness for C8: the anomaly emitted at value 95 against baseline
(80, 5) has z = 3 and confidence min(99.9, Φ(3)·100). -/
theorem confidence_formula_witness :
    check_anomaly_confidence 95 80 (some 5) =
      some (min 99.9 (stdNormCDF ((3 : ℚ) : ℝ) * 100)) := by
  have ha : check_anomaly 95 80 (some 5) = some ⟨95, 80, 3, "HIGH"⟩ := by
    rw [check_anomaly_some 95 80 5 (by norm_num), severityOf_eq]
    norm_num
  exact confidence_formula_bounded_monotone.1 95 80 (some 5) _ ha

/-! Section: Multivariate anomaly detection (`anomaly_detector.py`)

`AnomalyDetector.detect_multivariate_anomalies` (lines 290-363). The
query keeps rows with non-null temperature, pressure and vibration;
the remaining five feature values are carried in `MVRow`. The
Mahalanobis-distance pipeline (column-mean imputation, covariance
matrix, pseudo-inverse, `sqrt(diff.T @ inv_cov @ diff)`, lines
325-343) is floating-point linear algebra on the whole window; it is
abstracted as the per-row distance function `dist`, so that the
emission logic of lines 340-361 — the 15.09 threshold, the severity
split at 20 and the parameter snapshot — is modelled exactly. -/

/-- One qualifying telemetry row of the query in lines 301-318. -/
structure MVRow where
  timestamp : ℕ
  asset_id : String
  oee : ℚ
  temperature : ℚ
  pressure : ℚ
  vibration : ℚ
  current : ℚ
  deriving DecidableEq, Repr

/-- One emitted observation dict (lines 348-361); `parameters` models
the `parameters` sub-dict as an association list. -/
structure MVObservation where
  timestamp : ℕ
  asset_id : String
  distance : ℚ
  severity : String
  parameters : List (String × ℚ)
  deriving DecidableEq, Repr

/-- The per-row emission step (lines 347-361): an observation is
emitted only when the distance exceeds 15.09; severity is HIGH above
20, else MEDIUM. The `parameters` dict built in lines 355-360 carries
`oee`, `temperature`, `pressure` and `vibration` only — `current` is
not included. -/
def mvEmit (row : MVRow) (m_distance : ℚ) : Option MVObservation :=
  if 15.09 < m_distance then
    some { timestamp := row.timestamp
           asset_id := row.asset_id
           distance := m_distance
           severity := if 20 < m_distance then "HIGH" else "MEDIUM"
           parameters := [("oee", row.oee), ("temperature", row.temperature),
             ("pressure", row.pressure), ("vibration", row.vibration)] }
  else none

/-- The `AnomalyDetector.detect_multivariate_anomalies` (lines 290-363)
with the distance pipeline abstracted: fewer than 30 qualifying rows
returns the empty result (lines 322-323), otherwise each row is run
through the emission step. -/
def detect_multivariate_anomalies (rows : List MVRow) (dist : MVRow → ℚ) :
    List MVObservation :=
  if rows.length < 30 then []
  else rows.filterMap (fun r => mvEmit r (dist r))

/-- A concrete run of the detector: 30 identical qualifying rows, all
at distance 16, each emitting a MEDIUM observation. -/
lemma mvDemo_mem :
    (⟨0, "A1", 16, "MEDIUM",
      [("oee", 50), ("temperature", 70), ("pressure", 5), ("vibration", 1)]⟩ :
        MVObservation) ∈
      detect_multivariate_anomalies
        (List.replicate 30 ⟨0, "A1", 50, 70, 5, 1, 10⟩) (fun _ => 16) := by
  rw [detect_multivariate_anomalies, if_neg (by simp)]
  apply List.mem_filterMap.mpr
  refine ⟨⟨0, "A1", 50, 70, 5, 1, 10⟩, by simp, ?_⟩
  rw [mvEmit, if_pos (by norm_num : (15.09 : ℚ) < 16),
    if_neg (by norm_num : ¬ (20 : ℚ) < 16)]

/-- Claim C9, counterexample to the claim as stated: in a concrete run a
flagged observation's parameter snapshot has no `current` entry — only
four of the five features are echoed. -/
theorem multivariate_parameters_counterexample :
    ∃ o ∈ detect_multivariate_anomalies
        (List.replicate 30 ⟨0, "A1", 50, 70, 5, 1, 10⟩) (fun _ => 16),
      (15.09 : ℚ) < o.distance ∧
      o.parameters.lookup "current" = none ∧
      ("current", (10 : ℚ)) ∉ o.parameters := by
  refine ⟨⟨0, "A1", 16, "MEDIUM",
    [("oee", 50), ("temperature", 70), ("pressure", 5), ("vibration", 1)]⟩,
    mvDemo_mem, by norm_num, by simp [List.lookup], by simp⟩

/-- Claim C9 (amended): every observation emitted by
`detect_multivariate_anomalies` has Mahalanobis distance > 15.09,
severity HIGH when the distance exceeds 20 and MEDIUM otherwise, and
carries the original values of the features `oee`, `temperature`,
`pressure` and `vibration` of the flagged row (`current`, though used
in the distance computation, is not echoed in the snapshot). -/
theorem multivariate_emission (rows : List MVRow) (dist : MVRow → ℚ)
    (o : MVObservation)
    (ho : o ∈ detect_multivariate_anomalies rows dist) :
    (15.09 : ℚ) < o.distance ∧
    o.severity = (if (20 : ℚ) < o.distance then "HIGH" else "MEDIUM") ∧
    ∃ r ∈ rows, dist r = o.distance ∧
      o.parameters = [("oee", r.oee), ("temperature", r.temperature),
        ("pressure", r.pressure), ("vibration", r.vibration)] := by
  rw [detect_multivariate_anomalies] at ho
  split_ifs at ho with hlen
  · simp at ho
  · obtain ⟨r, hr, hemit⟩ := List.mem_filterMap.mp ho
    rw [mvEmit] at hemit
    by_cases hd : (15.09 : ℚ) < dist r
    · rw [if_pos hd, Option.some_inj] at hemit
      subst hemit
      exact ⟨hd, rfl, r, hr, rfl, rfl⟩
    · rw [if_neg hd] at hemit
      simp at hemit

/-- Witness for the amended C9: in the concrete 30-row run the emitted
observation has distance 16 > 15.09 and severity MEDIUM. -/
theorem multivariate_emission_witness :
    (15.09 : ℚ) <
      (⟨0, "A1", 16, "MEDIUM",
        [("oee", 50), ("temperature", 70), ("pressure", 5), ("vibration", 1)]⟩ :
          MVObservation).distance ∧
    (⟨0, "A1", 16, "MEDIUM",
      [("oee", 50), ("temperature", 70), ("pressure", 5), ("vibration", 1)]⟩ :
        MVObservation).severity = "MEDIUM" := by
  have h := multivariate_emission _ _ _ mvDemo_mem
  refine ⟨h.1, ?_⟩
  rw [h.2.1, if_neg (by norm_num : ¬ (20 : ℚ) < 16)]

end MS5
